import Mathlib

/-
Shallow embedding of the visa-guide local record store.

The embedding follows the two storage modules of the repository:
  * src/storage.js - the main store (users, current session, applications),
  * the unnamed storage module - chat history and the rolling password hash.

JavaScript objects become Lean structures; the localStorage substrate becomes
an explicit StoreState record threaded through each operation; the
nondeterministic environment inputs (Date.now timestamps, generated ids)
become explicit arguments.  Operations return the new state together with an
OpResult mirroring the { success, message / payload } objects of the source.
-/

namespace VisaGuide

/-- Model of the JavaScript `toLowerCase` call on the ASCII strings the store
compares: each character is lowered with the ASCII mapping. -/
def jsToLower (s : String) : String :=
  String.mk (s.data.map Char.toLower)

/-- Model of the JavaScript `trim` call: leading and trailing whitespace
characters are removed. -/
def jsTrim (s : String) : String :=
  String.mk (((s.data.dropWhile Char.isWhitespace).reverse.dropWhile
    Char.isWhitespace).reverse)

/-- Profile sub-object of a stored user (src/storage.js lines 153-159). -/
structure Profile where
  fullName : String
  email : String
  phone : String
  nationality : String
  currentLocation : String
deriving DecidableEq

/-- Lightweight application summary embedded in the owning user
(src/storage.js lines 331-337). -/
structure AppSummary where
  id : String
  destination : Option String
  visaType : Option String
  status : String
  createdAt : String
deriving DecidableEq

/-- Stored user record (src/storage.js lines 147-161). -/
structure User where
  id : String
  name : String
  email : String
  password : String
  createdAt : String
  profile : Profile
  applications : List AppSummary
deriving DecidableEq

/-- Session snapshot of a user.  In JavaScript the snapshot is a copy of the
user object whose `password` key may or may not have been deleted, so the
field is an `Option` recording whether the key is present. -/
structure SessionUser where
  id : String
  name : String
  email : String
  password : Option String
  createdAt : String
  profile : Profile
  applications : List AppSummary
deriving DecidableEq

/-- Canonical application record (src/storage.js lines 312-319), with the
form fields the repository callers supply. -/
structure Application where
  id : String
  userId : String
  status : String
  createdAt : String
  updatedAt : String
  approvedAt : Option String
  adminNotes : Option String
  destination : Option String
  visaType : Option String
  purpose : Option String
deriving DecidableEq

/-- Discriminated result object `{ success: true, payload }` or
`{ success: false, message }` returned by every registry operation. -/
inductive OpResult (α : Type) where
  | ok (value : α)
  | err (message : String)
deriving DecidableEq

/-- The persistent state of the store: the three localStorage keys
`visa_users`, `visa_current_user` and `visa_applications`. -/
structure StoreState where
  users : List User
  currentUser : Option SessionUser
  applications : List Application
deriving DecidableEq

/-- Input object of registerUser (src/storage.js line 134).  Optional keys
model the `userData.phone || ...` defaults. -/
structure RegisterData where
  name : String
  email : String
  password : String
  phone : Option String
  nationality : Option String
  currentLocation : Option String
deriving DecidableEq

/-- Input object of updateUserProfile.  Every key is optional; a present key
overrides the stored profile field by the object spread on line 227. -/
structure ProfileData where
  fullName : Option String
  email : Option String
  phone : Option String
  nationality : Option String
  currentLocation : Option String
deriving DecidableEq

/-- Input object of addApplication.  The spread `...applicationData` on
line 318 lets a present `status` key override the `pending` default. -/
structure ApplicationData where
  status : Option String
  destination : Option String
  visaType : Option String
  purpose : Option String
deriving DecidableEq

/-- Entry of the bounded per-user chat history of the unnamed storage
module (lines 818-822). -/
structure ChatMessage where
  role : String
  content : String
  timestamp : String
deriving DecidableEq

/-- Session copy `{ ...user }` followed by `delete sessionUser.password`,
as in src/storage.js lines 196-197. -/
def stripPassword (u : User) : SessionUser :=
  { id := u.id, name := u.name, email := u.email, password := none,
    createdAt := u.createdAt, profile := u.profile,
    applications := u.applications }

/-- Session copy that keeps the password key, as produced by the call
`setCurrentUser(newUser)` on src/storage.js line 169. -/
def fullSession (u : User) : SessionUser :=
  { id := u.id, name := u.name, email := u.email, password := some u.password,
    createdAt := u.createdAt, profile := u.profile,
    applications := u.applications }

/-- findUserByEmail (src/storage.js lines 114-117): first user whose
lower-cased email equals the lower-cased argument. -/
def findUserByEmail (s : StoreState) (email : String) : Option User :=
  s.users.find? (fun u => jsToLower u.email == jsToLower email)

/-- findUserById (src/storage.js lines 124-127). -/
def findUserById (s : StoreState) (userId : String) : Option User :=
  s.users.find? (fun u => u.id == userId)

/-- Shared model of the `findIndex` / mutate-in-place pattern: replace the
first element satisfying `p` by its image under `f`, returning the new list
and the modified element, or `none` when `findIndex` returns -1. -/
def modifyFirst {α : Type} (p : α → Bool) (f : α → α) : List α → Option (List α × α)
  | [] => none
  | x :: rest =>
    if p x then
      some (f x :: rest, f x)
    else
      match modifyFirst p f rest with
      | none => none
      | some (rest2, y) => some (x :: rest2, y)

/-- User object built by registerUser (src/storage.js lines 147-161). -/
def freshUser (d : RegisterData) (newId now : String) : User :=
  { id := newId
    name := jsTrim d.name
    email := jsToLower (jsTrim d.email)
    password := d.password
    createdAt := now
    profile :=
      { fullName := jsTrim d.name
        email := jsToLower (jsTrim d.email)
        phone := d.phone.getD ""
        nationality := d.nationality.getD ""
        currentLocation := d.currentLocation.getD "" }
    applications := [] }

/-- registerUser (src/storage.js lines 134-172).  Note line 169: the freshly
created user object is stored as the session with its password key intact. -/
def registerUser (s : StoreState) (d : RegisterData) (newId now : String) :
    StoreState × OpResult User :=
  if d.email = "" ∨ d.password = "" ∨ d.name = "" then
    (s, OpResult.err "Please fill in all required fields")
  else
    match findUserByEmail s d.email with
    | some _ => (s, OpResult.err "This email is already registered")
    | none =>
      ({ users := s.users ++ [freshUser d newId now]
         currentUser := some (fullSession (freshUser d newId now))
         applications := s.applications },
       OpResult.ok (freshUser d newId now))

/-- loginUser (src/storage.js lines 180-201). -/
def loginUser (s : StoreState) (email password : String) :
    StoreState × OpResult SessionUser :=
  if email = "" ∨ password = "" then
    (s, OpResult.err "Please enter both email and password")
  else
    match findUserByEmail s email with
    | none => (s, OpResult.err "No account found with this email address")
    | some user =>
      if user.password ≠ password then
        (s, OpResult.err "Incorrect password. Please try again.")
      else
        ({ s with currentUser := some (stripPassword user) },
         OpResult.ok (stripPassword user))

/-- Profile merge of updateUserProfile (src/storage.js lines 227-236): spread
of the old profile, then the supplied fields, then the stored top-level email;
the display name is updated only when a truthy fullName is supplied. -/
def mergeProfileUser (d : ProfileData) (u : User) : User :=
  { u with
    profile :=
      { fullName := d.fullName.getD u.profile.fullName
        email := u.email
        phone := d.phone.getD u.profile.phone
        nationality := d.nationality.getD u.profile.nationality
        currentLocation := d.currentLocation.getD u.profile.currentLocation }
    name :=
      match d.fullName with
      | some fn => if fn = "" then u.name else fn
      | none => u.name }

/-- updateUserProfile (src/storage.js lines 218-246).  The session is set to
the password-stripped updated user unconditionally (lines 240-243). -/
def updateUserProfile (s : StoreState) (userId : String) (d : ProfileData) :
    StoreState × OpResult SessionUser :=
  match modifyFirst (fun u => u.id == userId) (mergeProfileUser d) s.users with
  | none => (s, OpResult.err "User not found")
  | some (users2, u2) =>
    ({ s with users := users2, currentUser := some (stripPassword u2) },
     OpResult.ok (stripPassword u2))

/-- Application object built by addApplication (src/storage.js lines
312-319); the spread of applicationData may override the pending status. -/
def mkApplication (userId newId now : String) (d : ApplicationData) : Application :=
  { id := newId
    userId := userId
    status := d.status.getD "pending"
    createdAt := now
    updatedAt := now
    approvedAt := none
    adminNotes := none
    destination := d.destination
    visaType := d.visaType
    purpose := d.purpose }

/-- Summary pushed onto the owning user (src/storage.js lines 331-337). -/
def summaryOf (a : Application) : AppSummary :=
  { id := a.id, destination := a.destination, visaType := a.visaType,
    status := a.status, createdAt := a.createdAt }

/-- Append one summary to a user record (src/storage.js line 331). -/
def pushSummary (sum : AppSummary) (u : User) : User :=
  { u with applications := u.applications ++ [sum] }

/-- addApplication (src/storage.js lines 304-347). -/
def addApplication (s : StoreState) (userId : String) (d : ApplicationData)
    (newId now : String) : StoreState × OpResult Application :=
  match findUserById s userId with
  | none => (s, OpResult.err "User not found")
  | some _ =>
    match modifyFirst (fun u => u.id == userId)
        (pushSummary (summaryOf (mkApplication userId newId now d))) s.users with
    | none =>
      ({ s with applications := s.applications ++ [mkApplication userId newId now d] },
       OpResult.ok (mkApplication userId newId now d))
    | some (users2, owner) =>
      ({ users := users2
         currentUser := some (stripPassword owner)
         applications := s.applications ++ [mkApplication userId newId now d] },
       OpResult.ok (mkApplication userId newId now d))

/-- Summary filter of deleteApplication (src/storage.js lines 399-401). -/
def dropSummary (appId : String) (u : User) : User :=
  { u with applications := u.applications.filter (fun x => x.id != appId) }

/-- Canonical collection after the filter of deleteApplication
(src/storage.js line 387). -/
def remainingApps (s : StoreState) (userId appId : String) : List Application :=
  s.applications.filter (fun a => !(a.id == appId && a.userId == userId))

/-- deleteApplication (src/storage.js lines 382-411). -/
def deleteApplication (s : StoreState) (userId appId : String) :
    StoreState × OpResult Unit :=
  if (remainingApps s userId appId).length = s.applications.length then
    (s, OpResult.err "Application not found")
  else
    match modifyFirst (fun u => u.id == userId) (dropSummary appId) s.users with
    | none =>
      ({ s with applications := remainingApps s userId appId }, OpResult.ok ())
    | some (users2, owner) =>
      ({ users := users2
         currentUser := some (stripPassword owner)
         applications := remainingApps s userId appId },
       OpResult.ok ())

/-- Field updates of updateApplicationStatus (src/storage.js lines 428-434). -/
def setStatusApp (status notes now : String) (a : Application) : Application :=
  { a with
    status := status
    adminNotes := some notes
    updatedAt := now
    approvedAt := if status = "approved" then some now else a.approvedAt }

/-- updateApplicationStatus (src/storage.js lines 420-439): admin path that
touches only the canonical applications collection. -/
def updateApplicationStatus (s : StoreState) (appId status notes now : String) :
    StoreState × OpResult Application :=
  match modifyFirst (fun a => a.id == appId) (setStatusApp status notes now)
      s.applications with
  | none => (s, OpResult.err "Application not found")
  | some (apps2, a2) =>
    ({ s with applications := apps2 }, OpResult.ok a2)

/-- getUserApplications (src/storage.js lines 283-286). -/
def getUserApplications (s : StoreState) (userId : String) : List Application :=
  s.applications.filter (fun a => a.userId == userId)

/-- addChatMessage of the unnamed storage module (lines 816-830): push the
new entry, then splice away everything before the last 100 entries. -/
def addChatMessage (history : List ChatMessage) (role content now : String) :
    List ChatMessage :=
  if (history ++ [ChatMessage.mk role content now]).length > 100 then
    (history ++ [ChatMessage.mk role content now]).drop
      ((history ++ [ChatMessage.mk role content now]).length - 100)
  else
    history ++ [ChatMessage.mk role content now]

/-- Coercion of an integer into the signed 32-bit range, the effect of the
JavaScript expression `hash & hash`. -/
def toInt32 (n : Int) : Int :=
  (n + 2 ^ 31) % 2 ^ 32 - 2 ^ 31

/-- One iteration of the rolling hash loop of the unnamed storage module
(lines 903-907): `hash = ((hash << 5) - hash) + char; hash = hash & hash`. -/
def hashStep (h : Int) (c : Nat) : Int :=
  toInt32 (toInt32 (h * 32) - h + Int.ofNat c)

/-- Accumulated hash value over the character codes of the password. -/
def hashValue (password : String) : Int :=
  List.foldl (fun h c => hashStep h c.toNat) 0 password.data

/-- hashPassword of the unnamed storage module (lines 899-909). -/
def hashPassword (password : String) : String :=
  "hash_" ++ List.asString (Nat.toDigits 16 (hashValue password).natAbs)

/-- verifyPassword of the unnamed storage module (lines 914-916). -/
def verifyPassword (password hash : String) : Bool :=
  hashPassword password == hash

/-- Empty store, the state before any registration. -/
def emptyState : StoreState :=
  { users := [], currentUser := none, applications := [] }

/-- Sample registration input used by concrete evaluations. -/
def regAnn : RegisterData :=
  { name := "Ann", email := "ann@x.com", password := "secret1",
    phone := none, nationality := none, currentLocation := none }

/-- Registration input whose email carries a leading space. -/
def regSpace : RegisterData :=
  { name := "Ann", email := " ann@x.com", password := "pw1",
    phone := none, nationality := none, currentLocation := none }

/-- Sample profile for the concrete states below. -/
def profAnn : Profile :=
  { fullName := "Ann", email := "ann@x.com", phone := "",
    nationality := "", currentLocation := "" }

/-- Sample profile for the second concrete user. -/
def profBob : Profile :=
  { fullName := "Bob", email := "bob@x.com", phone := "",
    nationality := "", currentLocation := "" }

/-- Sample application owned by the first concrete user. -/
def appA : Application :=
  { id := "app_1", userId := "usr_a", status := "pending",
    createdAt := "t0", updatedAt := "t0", approvedAt := none,
    adminNotes := none, destination := some "France",
    visaType := some "tourist", purpose := none }

/-- First concrete user, owning one application summary. -/
def userAnn : User :=
  { id := "usr_a", name := "Ann", email := "ann@x.com", password := "pa",
    createdAt := "t0", profile := profAnn, applications := [summaryOf appA] }

/-- Second concrete user, owning nothing. -/
def userBob : User :=
  { id := "usr_b", name := "Bob", email := "bob@x.com", password := "pb",
    createdAt := "t0", profile := profBob, applications := [] }

/-- Concrete store with two users, one application and a session for the
first user. -/
def baseState : StoreState :=
  { users := [userAnn, userBob]
    currentUser := some (stripPassword userAnn)
    applications := [appA] }

/-- Profile update input with no keys supplied. -/
def pdNone : ProfileData :=
  { fullName := none, email := none, phone := none,
    nationality := none, currentLocation := none }

/-- Application form input used by concrete evaluations. -/
def appDataC2 : ApplicationData :=
  { status := none, destination := some "Spain",
    visaType := some "work", purpose := none }

/-- Registration input whose email differs from regAnn only in letter case. -/
def regAnnCaps : RegisterData :=
  { name := "Ann B", email := "Ann@X.com", password := "pw2",
    phone := none, nationality := none, currentLocation := none }

/-- Profile update input that tries to supply a new email. -/
def pdEmail : ProfileData :=
  { fullName := none, email := some "evil@x.com", phone := none,
    nationality := none, currentLocation := none }

/-- Lowering an ASCII character twice is the same as lowering it once. -/
theorem charToLower_idem (c : Char) : c.toLower.toLower = c.toLower := by
  show Char.toLower c.toLower = c.toLower
  unfold Char.toLower
  by_cases h : c.toNat ≥ 65 ∧ c.toNat ≤ 90
  · rw [if_pos h]
    have hv : (c.toNat + 32).isValidChar := by
      left
      omega
    have ht : (Char.ofNat (c.toNat + 32)).toNat = c.toNat + 32 := by
      unfold Char.ofNat
      rw [dif_pos hv]
      rfl
    rw [if_neg]
    rw [ht]
    omega
  · rw [if_neg h, if_neg h]

/-- The modelled toLowerCase call is idempotent. -/
theorem jsToLower_idem (s : String) : jsToLower (jsToLower s) = jsToLower s := by
  show String.mk ((s.data.map Char.toLower).map Char.toLower)
      = String.mk (s.data.map Char.toLower)
  rw [List.map_map]
  exact congrArg String.mk
    (List.map_congr_left fun c _ => charToLower_idem c)

/-- Searching an appended list starts over on the suffix when the prefix has
no match. -/
theorem find?_append_of_none {α : Type} (p : α → Bool) (l1 l2 : List α)
    (h : l1.find? p = none) : (l1 ++ l2).find? p = l2.find? p := by
  induction l1 with
  | nil => rfl
  | cons x rest ih =>
    cases hp : p x with
    | true =>
      rw [List.find?_cons_of_pos _ hp] at h
      exact absurd h (by simp)
    | false =>
      rw [List.find?_cons_of_neg _ (by simp [hp])] at h
      rw [List.cons_append, List.find?_cons_of_neg _ (by simp [hp])]
      exact ih h

/-- modifyFirst fails exactly when findIndex finds nothing. -/
theorem modifyFirst_eq_none {α : Type} (p : α → Bool) (f : α → α) (l : List α)
    (h : l.find? p = none) : modifyFirst p f l = none := by
  induction l with
  | nil => rfl
  | cons x rest ih =>
    cases hp : p x with
    | true =>
      rw [List.find?_cons_of_pos _ hp] at h
      exact absurd h (by simp)
    | false =>
      rw [List.find?_cons_of_neg _ (by simp [hp])] at h
      simp only [modifyFirst, hp, Bool.false_eq_true, if_false]
      rw [ih h]

/-- On a list whose first match is `u`, modifyFirst replaces `u` by `f u`;
when `f u` still satisfies the predicate, it is again the first match of the
resulting list. -/
theorem modifyFirst_of_find {α : Type} (p : α → Bool) (f : α → α) (l : List α)
    (u : α) (h : l.find? p = some u) :
    ∃ l2, modifyFirst p f l = some (l2, f u) ∧
      (p (f u) = true → l2.find? p = some (f u)) := by
  induction l with
  | nil => exact absurd h (by simp)
  | cons x rest ih =>
    cases hp : p x with
    | true =>
      rw [List.find?_cons_of_pos _ hp] at h
      have hxu : x = u := Option.some.inj h
      subst hxu
      refine ⟨f x :: rest, ?_, ?_⟩
      · simp only [modifyFirst, hp, if_true]
      · intro hfu
        rw [List.find?_cons_of_pos _ hfu]
    | false =>
      rw [List.find?_cons_of_neg _ (by simp [hp])] at h
      obtain ⟨l2, hm, hfind⟩ := ih h
      refine ⟨x :: l2, ?_, ?_⟩
      · simp only [modifyFirst, hp, Bool.false_eq_true, if_false, hm]
      · intro hfu
        rw [List.find?_cons_of_neg _ (by simp [hp])]
        exact hfind hfu

/-- C10: verifyPassword accepts the hash produced by hashPassword on the
same password, because the rolling hash is a deterministic function of the
password, so a login attempt with the registration password always passes
the credential check of the hashed-password implementation. -/
theorem verifyPassword_hashPassword (password : String) :
    verifyPassword password (hashPassword password) = true := by
  simp [verifyPassword]

/-- C1: the claim fails on registerUser.  Registering a user on the empty
store leaves a CurrentSession snapshot whose password field is present and
holds the registration password, because src/storage.js line 169 stores the
full user object instead of a password-stripped copy. -/
theorem registerUser_session_keeps_password :
    ((registerUser emptyState regAnn "usr_1" "t0").1.currentUser).map
        SessionUser.password
      = some (some "secret1") := by
  decide

/-- C8: starting from a chat history of at most 100 entries, addChatMessage
keeps the history at no more than 100 entries, appends the new message as the
last entry, and when the history already held 100 entries it evicts exactly
the oldest one. -/
theorem addChatMessage_bounded (history : List ChatMessage)
    (role content now : String) (h : history.length ≤ 100) :
    (addChatMessage history role content now).length ≤ 100 ∧
    (addChatMessage history role content now).getLast?
      = some (ChatMessage.mk role content now) ∧
    (history.length = 100 →
      addChatMessage history role content now
        = history.drop 1 ++ [ChatMessage.mk role content now]) := by
  unfold addChatMessage
  by_cases hc : (history ++ [ChatMessage.mk role content now]).length > 100
  · rw [if_pos hc]
    have hlen : history.length = 100 := by
      simp only [List.length_append, List.length_singleton] at hc
      omega
    have hd : (history ++ [ChatMessage.mk role content now]).length - 100 = 1 := by
      simp only [List.length_append, List.length_singleton]
      omega
    refine ⟨?_, ?_, ?_⟩
    · rw [List.length_drop]
      simp only [List.length_append, List.length_singleton]
      omega
    · rw [hd, List.drop_append_of_le_length (by omega)]
      simp
    · intro _
      rw [hd, List.drop_append_of_le_length (by omega)]
  · rw [if_neg hc]
    refine ⟨?_, by simp, ?_⟩
    · simp only [List.length_append, List.length_singleton] at hc ⊢
      omega
    · intro h100
      exfalso
      simp only [List.length_append, List.length_singleton] at hc
      omega

/-- C8 witness: adding a message to the empty chat history. -/
theorem addChatMessage_bounded_witness :
    (([] : List ChatMessage).length ≤ 100) ∧
    ((addChatMessage [] "user" "hello" "t1").length ≤ 100 ∧
      (addChatMessage [] "user" "hello" "t1").getLast?
        = some (ChatMessage.mk "user" "hello" "t1") ∧
      (([] : List ChatMessage).length = 100 →
        addChatMessage [] "user" "hello" "t1"
          = ([] : List ChatMessage).drop 1 ++ [ChatMessage.mk "user" "hello" "t1"])) :=
  ⟨by decide, addChatMessage_bounded [] "user" "hello" "t1" (by decide)⟩

/-- C5: when a user with the given email exists and a nonempty wrong
password is supplied, loginUser returns the invalid-credentials failure and
the whole store, the CurrentSession included, is exactly as before. -/
theorem loginUser_wrong_password (s : StoreState) (email password : String)
    (u : User) (hemail : email ≠ "") (hpw : password ≠ "")
    (hu : findUserByEmail s email = some u) (hwrong : u.password ≠ password) :
    loginUser s email password
      = (s, OpResult.err "Incorrect password. Please try again.") := by
  simp only [loginUser, hu]
  rw [if_neg (by simp [hemail, hpw]), if_pos hwrong]

/-- C5 witness: a wrong-password login against the concrete base store. -/
theorem loginUser_wrong_password_witness :
    ("ann@x.com" ≠ "" ∧ "wrong" ≠ "" ∧
      findUserByEmail baseState "ann@x.com" = some userAnn ∧
      userAnn.password ≠ "wrong") ∧
    loginUser baseState "ann@x.com" "wrong"
      = (baseState, OpResult.err "Incorrect password. Please try again.") :=
  ⟨⟨by decide, by decide, by decide, by decide⟩,
   loginUser_wrong_password baseState "ann@x.com" "wrong" userAnn
     (by decide) (by decide) (by decide) (by decide)⟩

/-- C6 counterexample: in the base store the session belongs to the first
user, yet a successful updateUserProfile call for the second user overwrites
the CurrentSession with the second user, so the session is not left
unchanged when it refers to a different user. -/
theorem updateUserProfile_changes_other_session :
    (updateUserProfile baseState "usr_b" pdNone).2
      = OpResult.ok (stripPassword userBob) ∧
    baseState.currentUser = some (stripPassword userAnn) ∧
    stripPassword userAnn ≠ stripPassword userBob ∧
    (updateUserProfile baseState "usr_b" pdNone).1.currentUser
      ≠ baseState.currentUser := by
  decide

/-- C6 amended: after every successful updateUserProfile call the
CurrentSession is unconditionally set to the password-stripped updated user,
regardless of whether the previous session was absent, referred to that
user, or referred to a different user. -/
theorem updateUserProfile_always_sets_session (s : StoreState) (userId : String)
    (d : ProfileData) (u : User) (hu : findUserById s userId = some u) :
    (updateUserProfile s userId d).1.currentUser
      = some (stripPassword (mergeProfileUser d u)) ∧
    (updateUserProfile s userId d).2
      = OpResult.ok (stripPassword (mergeProfileUser d u)) := by
  have hfind : s.users.find? (fun x => x.id == userId) = some u := hu
  obtain ⟨l2, hm, -⟩ :=
    modifyFirst_of_find (fun x => x.id == userId) (mergeProfileUser d) s.users u hfind
  refine ⟨?_, ?_⟩ <;> simp only [updateUserProfile, hm]

/-- C6 witness: updating the second user of the base store. -/
theorem updateUserProfile_always_sets_session_witness :
    findUserById baseState "usr_b" = some userBob ∧
    ((updateUserProfile baseState "usr_b" pdNone).1.currentUser
        = some (stripPassword (mergeProfileUser pdNone userBob)) ∧
      (updateUserProfile baseState "usr_b" pdNone).2
        = OpResult.ok (stripPassword (mergeProfileUser pdNone userBob))) :=
  ⟨by decide,
   updateUserProfile_always_sets_session baseState "usr_b" pdNone userBob (by decide)⟩

/-- C9: for an existing user, updateUserProfile succeeds and the stored
top-level email of that user is unchanged, whatever profileData was supplied,
an email key included: the merge overwrites the profile email with the stored
one and never touches the top-level email field. -/
theorem updateUserProfile_preserves_email (s : StoreState) (userId : String)
    (d : ProfileData) (u : User) (hu : findUserById s userId = some u) :
    (updateUserProfile s userId d).2
      = OpResult.ok (stripPassword (mergeProfileUser d u)) ∧
    findUserById (updateUserProfile s userId d).1 userId
      = some (mergeProfileUser d u) ∧
    (mergeProfileUser d u).email = u.email ∧
    (mergeProfileUser d u).profile.email = u.email := by
  have hfind : s.users.find? (fun x => x.id == userId) = some u := hu
  have hp := List.find?_some hfind
  obtain ⟨l2, hm, hfi⟩ :=
    modifyFirst_of_find (fun x => x.id == userId) (mergeProfileUser d) s.users u hfind
  refine ⟨?_, ?_, rfl, rfl⟩
  · simp only [updateUserProfile, hm]
  · simp only [updateUserProfile, hm]
    exact hfi hp

/-- C9 witness: a profile update that supplies a different email. -/
theorem updateUserProfile_preserves_email_witness :
    findUserById baseState "usr_a" = some userAnn ∧
    ((updateUserProfile baseState "usr_a" pdEmail).2
        = OpResult.ok (stripPassword (mergeProfileUser pdEmail userAnn)) ∧
      findUserById (updateUserProfile baseState "usr_a" pdEmail).1 "usr_a"
        = some (mergeProfileUser pdEmail userAnn) ∧
      (mergeProfileUser pdEmail userAnn).email = userAnn.email ∧
      (mergeProfileUser pdEmail userAnn).profile.email = userAnn.email) :=
  ⟨by decide,
   updateUserProfile_preserves_email baseState "usr_a" pdEmail userAnn (by decide)⟩

/-- C7: on a store containing an application with the given id,
updateApplicationStatus leaves the users collection, every embedded summary
with it, and the CurrentSession unchanged, and updates exactly that
application: the new status and adminNotes are stored, updatedAt is
restamped, and approvedAt is stamped exactly when the new status is
approved. -/
theorem updateApplicationStatus_spec (s : StoreState)
    (appId status notes now : String) (a : Application)
    (ha : s.applications.find? (fun x => x.id == appId) = some a) :
    (updateApplicationStatus s appId status notes now).1.users = s.users ∧
    (updateApplicationStatus s appId status notes now).1.currentUser
      = s.currentUser ∧
    (updateApplicationStatus s appId status notes now).2
      = OpResult.ok (setStatusApp status notes now a) ∧
    (updateApplicationStatus s appId status notes now).1.applications.find?
      (fun x => x.id == appId) = some (setStatusApp status notes now a) ∧
    (setStatusApp status notes now a).status = status ∧
    (setStatusApp status notes now a).adminNotes = some notes ∧
    (setStatusApp status notes now a).updatedAt = now ∧
    (setStatusApp status notes now a).approvedAt
      = (if status = "approved" then some now else a.approvedAt) := by
  have hp := List.find?_some ha
  obtain ⟨l2, hm, hfi⟩ :=
    modifyFirst_of_find (fun x => x.id == appId) (setStatusApp status notes now)
      s.applications a ha
  refine ⟨?_, ?_, ?_, ?_, rfl, rfl, rfl, rfl⟩
  · simp only [updateApplicationStatus, hm]
  · simp only [updateApplicationStatus, hm]
  · simp only [updateApplicationStatus, hm]
  · simp only [updateApplicationStatus, hm]
    exact hfi hp

/-- C7 witness: approving the concrete pending application. -/
theorem updateApplicationStatus_spec_witness :
    baseState.applications.find? (fun x => x.id == "app_1") = some appA ∧
    ((updateApplicationStatus baseState "app_1" "approved" "ok" "t9").1.users
        = baseState.users ∧
      (updateApplicationStatus baseState "app_1" "approved" "ok" "t9").1.currentUser
        = baseState.currentUser ∧
      (updateApplicationStatus baseState "app_1" "approved" "ok" "t9").2
        = OpResult.ok (setStatusApp "approved" "ok" "t9" appA) ∧
      (updateApplicationStatus baseState "app_1" "approved" "ok" "t9").1.applications.find?
        (fun x => x.id == "app_1") = some (setStatusApp "approved" "ok" "t9" appA) ∧
      (setStatusApp "approved" "ok" "t9" appA).status = "approved" ∧
      (setStatusApp "approved" "ok" "t9" appA).adminNotes = some "ok" ∧
      (setStatusApp "approved" "ok" "t9" appA).updatedAt = "t9" ∧
      (setStatusApp "approved" "ok" "t9" appA).approvedAt
        = (if "approved" = "approved" then some "t9" else appA.approvedAt)) :=
  ⟨by decide,
   updateApplicationStatus_spec baseState "app_1" "approved" "ok" "t9" appA (by decide)⟩

/-- C2: when the user exists, addApplication succeeds, the canonical
applications collection filtered to that user grows by exactly one entry,
and the owning user now carries its old summary list extended by exactly one
entry whose id equals the id of the new application. -/
theorem addApplication_grows (s : StoreState) (userId : String)
    (d : ApplicationData) (newId now : String) (u : User)
    (hu : findUserById s userId = some u) :
    (addApplication s userId d newId now).2
      = OpResult.ok (mkApplication userId newId now d) ∧
    (getUserApplications (addApplication s userId d newId now).1 userId).length
      = (getUserApplications s userId).length + 1 ∧
    findUserById (addApplication s userId d newId now).1 userId
      = some (pushSummary (summaryOf (mkApplication userId newId now d)) u) ∧
    (pushSummary (summaryOf (mkApplication userId newId now d)) u).applications.length
      = u.applications.length + 1 ∧
    ((pushSummary (summaryOf (mkApplication userId newId now d)) u).applications.getLast?).map
        AppSummary.id
      = some (mkApplication userId newId now d).id := by
  have hfind : s.users.find? (fun x => x.id == userId) = some u := hu
  have hp := List.find?_some hfind
  obtain ⟨l2, hm, hfi⟩ :=
    modifyFirst_of_find (fun x => x.id == userId)
      (pushSummary (summaryOf (mkApplication userId newId now d))) s.users u hfind
  refine ⟨?_, ?_, ?_, ?_, ?_⟩
  · simp only [addApplication, hu, hm]
  · simp only [addApplication, hu, hm, getUserApplications]
    rw [List.filter_append]
    simp [mkApplication]
  · simp only [addApplication, hu, hm]
    exact hfi hp
  · simp [pushSummary]
  · simp [pushSummary]
    rfl

/-- C2 witness: adding an application for the first user of the base store. -/
theorem addApplication_grows_witness :
    findUserById baseState "usr_a" = some userAnn ∧
    ((addApplication baseState "usr_a" appDataC2 "app_9" "t5").2
        = OpResult.ok (mkApplication "usr_a" "app_9" "t5" appDataC2) ∧
      (getUserApplications (addApplication baseState "usr_a" appDataC2 "app_9" "t5").1
          "usr_a").length
        = (getUserApplications baseState "usr_a").length + 1 ∧
      findUserById (addApplication baseState "usr_a" appDataC2 "app_9" "t5").1 "usr_a"
        = some (pushSummary (summaryOf (mkApplication "usr_a" "app_9" "t5" appDataC2))
            userAnn) ∧
      (pushSummary (summaryOf (mkApplication "usr_a" "app_9" "t5" appDataC2))
          userAnn).applications.length
        = userAnn.applications.length + 1 ∧
      ((pushSummary (summaryOf (mkApplication "usr_a" "app_9" "t5" appDataC2))
          userAnn).applications.getLast?).map AppSummary.id
        = some (mkApplication "usr_a" "app_9" "t5" appDataC2).id) :=
  ⟨by decide,
   addApplication_grows baseState "usr_a" appDataC2 "app_9" "t5" userAnn (by decide)⟩

/-- C4 counterexample: registering twice with the identical email
" ann@x.com" (leading space) does not make the second call fail with the
duplicate-email error, and afterwards two users with the normalized email
ann@x.com exist: the store trims the email before saving but not before the
duplicate lookup. -/
theorem register_untrimmed_email_duplicate :
    (registerUser (registerUser emptyState regSpace "u1" "t1").1 regSpace "u2" "t2").2
      ≠ OpResult.err "This email is already registered" ∧
    (registerUser (registerUser emptyState regSpace "u1" "t1").1 regSpace
        "u2" "t2").1.users.countP
      (fun u => jsToLower u.email == jsToLower "ann@x.com") = 2 := by
  decide

/-- Equation for a registration that passes validation and finds no user
with the given email. -/
theorem registerUser_fresh (s : StoreState) (d : RegisterData) (newId now : String)
    (hn : d.name ≠ "") (hp : d.password ≠ "") (he : d.email ≠ "")
    (hfresh : findUserByEmail s d.email = none) :
    registerUser s d newId now
      = ({ users := s.users ++ [freshUser d newId now]
           currentUser := some (fullSession (freshUser d newId now))
           applications := s.applications },
         OpResult.ok (freshUser d newId now)) := by
  simp only [registerUser, hfresh]
  rw [if_neg (by simp [he, hp, hn])]

/-- Equation for a registration that passes validation but finds a user with
the given email already registered. -/
theorem registerUser_duplicate (s : StoreState) (d : RegisterData)
    (newId now : String) (u : User)
    (hn : d.name ≠ "") (hp : d.password ≠ "") (he : d.email ≠ "")
    (hdup : findUserByEmail s d.email = some u) :
    registerUser s d newId now
      = (s, OpResult.err "This email is already registered") := by
  simp only [registerUser, hdup]
  rw [if_neg (by simp [he, hp, hn])]

/-- C4 amended: for two register calls with nonempty required fields whose
emails are equal up to ASCII case, where the first email carries no leading
or trailing whitespace and no user with that email is registered yet, the
second call fails with the duplicate-email error, the failing call leaves
the store unchanged, and exactly one user with that case-insensitively
compared email exists afterwards. -/
theorem register_duplicate_email (s : StoreState) (d1 d2 : RegisterData)
    (id1 t1 id2 t2 : String)
    (hn1 : d1.name ≠ "") (hp1 : d1.password ≠ "") (he1 : d1.email ≠ "")
    (hn2 : d2.name ≠ "") (hp2 : d2.password ≠ "") (he2 : d2.email ≠ "")
    (htrim1 : jsTrim d1.email = d1.email)
    (hcase : jsToLower d1.email = jsToLower d2.email)
    (hfresh : findUserByEmail s d1.email = none) :
    (registerUser (registerUser s d1 id1 t1).1 d2 id2 t2).2
      = OpResult.err "This email is already registered" ∧
    (registerUser (registerUser s d1 id1 t1).1 d2 id2 t2).1
      = (registerUser s d1 id1 t1).1 ∧
    (registerUser (registerUser s d1 id1 t1).1 d2 id2 t2).1.users.countP
      (fun u => jsToLower u.email == jsToLower d2.email) = 1 := by
  have hreg1 := registerUser_fresh s d1 id1 t1 hn1 hp1 he1 hfresh
  have hemail1 : (freshUser d1 id1 t1).email = jsToLower d1.email := by
    show jsToLower (jsTrim d1.email) = jsToLower d1.email
    rw [htrim1]
  have hmatch : (jsToLower (freshUser d1 id1 t1).email == jsToLower d2.email) = true := by
    rw [hemail1, ← hcase, jsToLower_idem]
    exact beq_self_eq_true _
  have hnone2 : s.users.find?
      (fun u => jsToLower u.email == jsToLower d2.email) = none := by
    have hpe : (fun u : User => jsToLower u.email == jsToLower d2.email)
        = fun u : User => jsToLower u.email == jsToLower d1.email := by
      funext u
      rw [hcase]
    rw [hpe]
    exact hfresh
  have hfind2 : findUserByEmail (registerUser s d1 id1 t1).1 d2.email
      = some (freshUser d1 id1 t1) := by
    rw [hreg1]
    show (s.users ++ [freshUser d1 id1 t1]).find? _ = _
    rw [find?_append_of_none _ _ _ hnone2]
    exact List.find?_cons_of_pos _ hmatch
  have hreg2 := registerUser_duplicate (registerUser s d1 id1 t1).1 d2 id2 t2
    (freshUser d1 id1 t1) hn2 hp2 he2 hfind2
  refine ⟨?_, ?_, ?_⟩
  · rw [hreg2]
  · rw [hreg2]
  · rw [hreg2, hreg1]
    show (s.users ++ [freshUser d1 id1 t1]).countP _ = 1
    rw [List.countP_append]
    have h0 : s.users.countP
        (fun u => jsToLower u.email == jsToLower d2.email) = 0 := by
      rw [List.countP_eq_zero]
      intro a ha
      simpa using List.find?_eq_none.mp hnone2 a ha
    rw [h0]
    simp [List.countP_cons, hmatch]

/-- C4 witness: two registrations whose emails differ only in letter case. -/
theorem register_duplicate_email_witness :
    (regAnn.name ≠ "" ∧ regAnn.password ≠ "" ∧ regAnn.email ≠ "" ∧
      regAnnCaps.name ≠ "" ∧ regAnnCaps.password ≠ "" ∧ regAnnCaps.email ≠ "" ∧
      jsTrim regAnn.email = regAnn.email ∧
      jsToLower regAnn.email = jsToLower regAnnCaps.email ∧
      findUserByEmail emptyState regAnn.email = none) ∧
    ((registerUser (registerUser emptyState regAnn "u1" "t1").1 regAnnCaps "u2" "t2").2
        = OpResult.err "This email is already registered" ∧
      (registerUser (registerUser emptyState regAnn "u1" "t1").1 regAnnCaps "u2" "t2").1
        = (registerUser emptyState regAnn "u1" "t1").1 ∧
      (registerUser (registerUser emptyState regAnn "u1" "t1").1 regAnnCaps
          "u2" "t2").1.users.countP
        (fun u => jsToLower u.email == jsToLower regAnnCaps.email) = 1) :=
  ⟨⟨by decide, by decide, by decide, by decide, by decide, by decide,
    by decide, by decide, by decide⟩,
   register_duplicate_email emptyState regAnn regAnnCaps "u1" "t1" "u2" "t2"
     (by decide) (by decide) (by decide) (by decide) (by decide) (by decide)
     (by decide) (by decide) (by decide)⟩

/-- C3: when the canonical application ids are distinct, as the unique-id
data model requires, a successful deleteApplication leaves no application
with the deleted id in the canonical collection and no entry with that id in
the embedded summary of the addressed user. -/
theorem deleteApplication_removes_id (s : StoreState) (userId appId : String)
    (hids : (s.applications.map Application.id).Nodup)
    (hsucc : (deleteApplication s userId appId).2 = OpResult.ok ()) :
    (∀ a ∈ (deleteApplication s userId appId).1.applications, a.id ≠ appId) ∧
    (∀ u2, findUserById (deleteApplication s userId appId).1 userId = some u2 →
      ∀ x ∈ u2.applications, x.id ≠ appId) := by
  by_cases hlen : (remainingApps s userId appId).length = s.applications.length
  · exfalso
    simp only [deleteApplication, if_pos hlen] at hsucc
    exact OpResult.noConfusion hsucc
  · have hex : ∃ b ∈ s.applications,
        ¬((fun a : Application => !(a.id == appId && a.userId == userId)) b = true) := by
      by_contra hall
      push_neg at hall
      apply hlen
      have heq : s.applications.filter
          (fun a => !(a.id == appId && a.userId == userId)) = s.applications := by
        rw [List.filter_eq_self]
        intro a ha
        exact hall a ha
      rw [remainingApps, heq]
    obtain ⟨b, hbmem, hbp⟩ := hex
    have hb : (b.id == appId && b.userId == userId) = true := by
      simpa using hbp
    have hbid : b.id = appId := by
      have h1 := (Bool.and_eq_true _ _).mp hb
      exact beq_iff_eq.mp h1.1
    have happs : (deleteApplication s userId appId).1.applications
        = remainingApps s userId appId := by
      simp only [deleteApplication, if_neg hlen]
      cases hm : modifyFirst (fun u => u.id == userId) (dropSummary appId) s.users with
      | none => rfl
      | some pr =>
        obtain ⟨users2, owner⟩ := pr
        rfl
    constructor
    · intro a hamem haid
      rw [happs, remainingApps, List.mem_filter] at hamem
      obtain ⟨hmem, hpa⟩ := hamem
      have hab : a = b := by
        have hid : a.id = b.id := by rw [haid, hbid]
        exact List.inj_on_of_nodup_map hids hmem hbmem hid
      rw [hab, hb] at hpa
      simp at hpa
    · intro u2 hfind x hx
      cases hf : s.users.find? (fun u => u.id == userId) with
      | none =>
        have hm := modifyFirst_eq_none (fun u => u.id == userId)
          (dropSummary appId) s.users hf
        have hnone : findUserById (deleteApplication s userId appId).1 userId = none := by
          simp only [deleteApplication, if_neg hlen, hm]
          exact hf
        rw [hnone] at hfind
        exact Option.noConfusion hfind
      | some u =>
        obtain ⟨l2, hm, hfi⟩ :=
          modifyFirst_of_find (fun v => v.id == userId) (dropSummary appId) s.users u hf
        have hpres := List.find?_some hf
        have hfind2 : findUserById (deleteApplication s userId appId).1 userId
            = some (dropSummary appId u) := by
          simp only [deleteApplication, if_neg hlen, hm]
          exact hfi hpres
        rw [hfind2] at hfind
        have hu2 : u2 = dropSummary appId u := (Option.some.inj hfind).symm
        rw [hu2] at hx
        have hxm := (List.mem_filter.mp hx).2
        simpa using hxm

/-- C3 witness: deleting the only application of the base store. -/
theorem deleteApplication_removes_id_witness :
    ((baseState.applications.map Application.id).Nodup ∧
      (deleteApplication baseState "usr_a" "app_1").2 = OpResult.ok ()) ∧
    ((∀ a ∈ (deleteApplication baseState "usr_a" "app_1").1.applications,
        a.id ≠ "app_1") ∧
      (∀ u2, findUserById (deleteApplication baseState "usr_a" "app_1").1 "usr_a"
          = some u2 → ∀ x ∈ u2.applications, x.id ≠ "app_1")) :=
  ⟨⟨by decide, by decide⟩,
   deleteApplication_removes_id baseState "usr_a" "app_1" (by decide) (by decide)⟩

end VisaGuide
